import Mathlib

/-!
Verification of the TravelLLM response-integrity and context-extraction
pipeline.  The TypeScript sources (cleanSystemLeakage.ts,
hallucinationDetector.ts, conversationManager.ts, server.ts) are shallowly
embedded: strings are Lean strings, JavaScript regular-expression
search/replace is interpreted by a small backtracking matcher with
JavaScript semantics (leftmost match position, alternatives tried left to
right, greedy repetition, non-overlapping global scans), and the relevant
pure fragments of each TypeScript function are translated definition by
definition.
-/

/-! ## ASCII character helpers (JS toLowerCase / toUpperCase on ASCII) -/

/-- ASCII lower-casing of one character, as JS String.toLowerCase acts on
the ASCII range (all strings in the repository are ASCII apart from the
degree sign and bullet, which are unaffected). -/
def jsLowerChar (c : Char) : Char :=
  if 'A' ≤ c ∧ c ≤ 'Z' then Char.ofNat (c.toNat + 32) else c

/-- ASCII upper-casing of one character (JS String.toUpperCase on ASCII). -/
def jsUpperChar (c : Char) : Char :=
  if 'a' ≤ c ∧ c ≤ 'z' then Char.ofNat (c.toNat - 32) else c

/-- JS String.toLowerCase restricted to ASCII input. -/
def jsToLower (s : String) : String := String.mk (s.data.map jsLowerChar)

/-- The ASCII whitespace characters matched by the JS regex class backslash-s
(space, tab, newline, carriage return, vertical tab, form feed). -/
def jsWhitespace (c : Char) : Bool :=
  c = ' ' || c = '\t' || c = '\n' || c = '\x0d' || c = '\x0b' || c = '\x0c'

/-- JS word character (regex class backslash-w): letters, digits, underscore. -/
def jsWordChar (c : Char) : Bool :=
  ('a' ≤ c && c ≤ 'z') || ('A' ≤ c && c ≤ 'Z') || ('0' ≤ c && c ≤ '9') || c = '_'

/-- Does the character list `l` start with the list `p`? -/
def startsWithChars : List Char → List Char → Bool
  | [], _ => true
  | _ :: _, [] => false
  | p :: ps, c :: cs => p == c && startsWithChars ps cs

/-- Does the character list `l` contain `p` as a contiguous sublist?
(Semantics of JS String.includes.) -/
def includesChars (p : List Char) : List Char → Bool
  | [] => startsWithChars p []
  | c :: rest => startsWithChars p (c :: rest) || includesChars p rest

/-- JS `s.includes(sub)`. -/
def includesSubstr (s sub : String) : Bool := includesChars sub.data s.data

/-- JS String.trim restricted to ASCII whitespace. -/
def jsTrim (s : String) : String :=
  String.mk (((s.data.dropWhile jsWhitespace).reverse.dropWhile jsWhitespace).reverse)

/-- JS parseInt on strings that begin with a run of decimal digits (every
call site in the repository passes a regex match that starts with digits). -/
def jsParseInt (s : String) : Int :=
  Int.ofNat ((s.data.takeWhile Char.isDigit).foldl (fun acc c => acc * 10 + (c.toNat - '0'.toNat)) 0)

/-- JS `s.charAt(0).toUpperCase() + s.slice(1)` (empty string maps to itself). -/
def capitalizeFirst (s : String) : String :=
  match s.data with
  | [] => ""
  | c :: rest => String.mk (jsUpperChar c :: rest)

/-- The insertion-order deduplication performed by JS `[...new Set(list)]`:
keeps the first occurrence of each element.  `acc` holds the already-kept
elements in reverse order. -/
def jsSetDedupAux : List String → List String → List String
  | acc, [] => acc.reverse
  | acc, x :: xs => if x ∈ acc then jsSetDedupAux acc xs else jsSetDedupAux (x :: acc) xs

/-- JS `[...new Set(list)]`. -/
def jsSetDedup (l : List String) : List String := jsSetDedupAux [] l

/-! ## A small matcher for the JS regular expressions used in the sources

Patterns are represented by the `Regex.RE` syntax tree below; each pattern
definition later in the file mirrors one regex literal of the TypeScript
sources.  `Regex.mats` enumerates the parses of a pattern at one position
in priority order (alternatives left to right, repetition greedy), which is
exactly the order in which a JS backtracking engine finds them, so the head
of the list is the JS match.  The fuel argument strictly exceeds the
maximal recursion depth, so it never cuts off a parse. -/

namespace Regex

/-- Regular-expression syntax: empty string, single-character class,
concatenation, ordered alternation, greedy Kleene star, capturing group,
start/end anchors (plain and multiline) and word boundary. -/
inductive RE : Type where
  | eps : RE
  | cls : (Char → Bool) → RE
  | cat : RE → RE → RE
  | alt : RE → RE → RE
  | star : RE → RE
  | grp : Nat → RE → RE
  | bos : RE
  | bolM : RE
  | eos : RE
  | eolM : RE
  | wb : RE

/-- Captured groups: group index paired with the captured characters. -/
abbrev Caps := List (Nat × List Char)

/-- Structural size of a pattern, used only to compute a sufficient fuel. -/
def REsize : RE → Nat
  | .cat a b => REsize a + REsize b + 1
  | .alt a b => REsize a + REsize b + 1
  | .star a => REsize a + 1
  | .grp _ a => REsize a + 1
  | _ => 1

/-- The character preceding the rest of the input after consuming
`consumed`, given the character `prev` that preceded the current position
(used by the anchors and the word boundary). -/
def prevAfter (consumed : List Char) (prev : Option Char) : Option Char :=
  match consumed.getLast? with
  | some c => some c
  | none => prev

/-- All parses of `re` at the current position, in JS priority order.  Each
result is (consumed characters, remaining input, captures).  `prev` is the
character immediately before the current position (`none` at the start of
the whole string).  An iteration of `star` that consumes nothing ends the
repetition, as in JS. -/
def mats : Nat → RE → Option Char → List Char → List (List Char × List Char × Caps)
  | 0, _, _, _ => []
  | fu + 1, re, prev, l =>
    match re with
    | .eps => [([], l, [])]
    | .cls p =>
      match l with
      | c :: rest => if p c then [([c], rest, [])] else []
      | [] => []
    | .cat a b =>
      (mats fu a prev l).flatMap (fun ra =>
        (mats fu b (prevAfter ra.1 prev) ra.2.1).map (fun rb =>
          (ra.1 ++ rb.1, rb.2.1, ra.2.2 ++ rb.2.2)))
    | .alt a b => mats fu a prev l ++ mats fu b prev l
    | .star a =>
      ((mats fu a prev l).flatMap (fun ra =>
        if ra.1.isEmpty then [] else
        (mats fu (.star a) (prevAfter ra.1 prev) ra.2.1).map (fun rb =>
          (ra.1 ++ rb.1, rb.2.1, ra.2.2 ++ rb.2.2)))) ++ [([], l, [])]
    | .grp n a => (mats fu a prev l).map (fun ra => (ra.1, ra.2.1, ra.2.2 ++ [(n, ra.1)]))
    | .bos => if prev.isNone then [([], l, [])] else []
    | .bolM =>
      match prev with
      | none => [([], l, [])]
      | some c => if c = '\n' then [([], l, [])] else []
    | .eos => if l.isEmpty then [([], l, [])] else []
    | .eolM =>
      match l with
      | [] => [([], l, [])]
      | c :: _ => if c = '\n' then [([], l, [])] else []
    | .wb =>
      let wl := match prev with | some c => jsWordChar c | none => false
      let wr := match l with | c :: _ => jsWordChar c | [] => false
      if wl != wr then [([], l, [])] else []

/-- The JS match attempt of `re` at the current position: all parses with a
fuel large enough never to truncate the search. -/
def matchHere (re : RE) (prev : Option Char) (l : List Char) : List (List Char × List Char × Caps) :=
  mats ((l.length + 2) * (REsize re + 2)) re prev l

/-- Scan left to right for the first position where `re` matches; returns
(text before the match, matched text, captures, rest, character preceding
the rest), i.e. the data a JS regex search produces. -/
def searchAux (re : RE) : Option Char → List Char → List Char →
    Option (List Char × List Char × Caps × List Char × Option Char)
  | prev, preRev, l =>
    match matchHere re prev l with
    | r :: _ => some (preRev.reverse, r.1, r.2.2, r.2.1, prevAfter r.1 prev)
    | [] =>
      match l with
      | [] => none
      | c :: rest => searchAux re (some c) (c :: preRev) rest

/-- One piece of a JS replacement template: literal text or a reference to
a numbered capture group. -/
inductive Piece where
  | str : String → Piece
  | cap : Nat → Piece

/-- Instantiate a replacement template with the captures of one match
(an unset group expands to the empty string, as in JS). -/
def expand (tmpl : List Piece) (caps : Caps) : List Char :=
  tmpl.flatMap (fun piece =>
    match piece with
    | .str s => s.data
    | .cap n =>
      match caps.find? (fun pr => pr.1 = n) with
      | some pr => pr.2
      | none => [])

/-- JS `String.replace` with a global regex: repeatedly find the leftmost
match, splice in the expanded template, and continue after the match (an
empty match advances one character, as JS does via lastIndex). -/
def replaceAllAux (re : RE) (tmpl : List Piece) : Nat → Option Char → List Char → List Char
  | 0, _, l => l
  | fu + 1, prev, l =>
    match searchAux re prev [] l with
    | none => l
    | some (pre, m, caps, rest, prevNext) =>
      if m.isEmpty then
        match rest with
        | [] => pre ++ expand tmpl caps
        | c :: rs => pre ++ expand tmpl caps ++ c :: replaceAllAux re tmpl fu (some c) rs
      else pre ++ expand tmpl caps ++ replaceAllAux re tmpl fu prevNext rest

/-- JS `s.replace(re, template)` for a regex with the g flag. -/
def replaceAll (re : RE) (tmpl : List Piece) (s : String) : String :=
  String.mk (replaceAllAux re tmpl (s.data.length + 1) none s.data)

/-- JS `s.match(re)` with the g flag: the list of (non-overlapping,
leftmost) matched substrings, empty list standing for a null result. -/
def matchAllAux (re : RE) : Nat → Option Char → List Char → List String
  | 0, _, _ => []
  | fu + 1, prev, l =>
    match searchAux re prev [] l with
    | none => []
    | some (_, m, _, rest, prevNext) =>
      if m.isEmpty then
        match rest with
        | [] => [String.mk m]
        | c :: rs => String.mk m :: matchAllAux re fu (some c) rs
      else String.mk m :: matchAllAux re fu prevNext rest

/-- JS `s.match(re)` with the g flag (see `matchAllAux`). -/
def matchAll (re : RE) (s : String) : List String := matchAllAux re (s.data.length + 1) none s.data

/-- JS `re.test(s)` / truthiness of `s.match(re)` without the g flag. -/
def test (re : RE) (s : String) : Bool := (searchAux re none [] s.data).isSome

/-- A single literal character (case-sensitive). -/
def chr (c : Char) : RE := .cls (fun x => x == c)

/-- A single literal character under the i flag (case-insensitive). -/
def ciChr (c : Char) : RE := .cls (fun x => jsLowerChar x == jsLowerChar c)

/-- Concatenation of a list of patterns. -/
def cats (l : List RE) : RE := l.foldr .cat .eps

/-- A case-sensitive literal string. -/
def lit (s : String) : RE := cats (s.data.map chr)

/-- A case-insensitive literal string (regex literal under the i flag). -/
def litCI (s : String) : RE := cats (s.data.map ciChr)

/-- Ordered alternation of a list of patterns (a|b|c). -/
def altL : List RE → RE
  | [] => .cls (fun _ => false)
  | [r] => r
  | r :: rs => .alt r (altL rs)

/-- The ? quantifier (greedy: presence preferred). -/
def opt (r : RE) : RE := .alt r .eps

/-- The + quantifier. -/
def plus (r : RE) : RE := .cat r (.star r)

/-- The regex class backslash-s. -/
def ws : RE := .cls jsWhitespace

/-- Greedy backslash-s star. -/
def wsStar : RE := .star ws

/-- The regex class backslash-d. -/
def digit : RE := .cls Char.isDigit

/-- One or more decimal digits. -/
def digPlus : RE := plus digit

/-- The regex class excluding one character, such as [^.] . -/
def notChr (c : Char) : RE := .cls (fun x => x != c)

end Regex

/-! ## cleanSystemLeakage.ts — SystemLeakageCleaner.clean

Each `mlP…` pattern mirrors one regex literal of the `metaLabels` array
(lines 6–28), written with the same alternatives and classes; `i`-flagged
literals use `litCI`.  The numbered `re…` patterns mirror the replacement
steps of lines 35–72 in order. -/

namespace CleanSrc

open Regex

/-- Pattern of line 7: Identify (?:key )?requirements?[^.]*\. (gi). -/
def mlP1 : RE := cats [litCI "Identify ", opt (litCI "key "), litCI "requirement", opt (ciChr 's'), .star (notChr '.'), chr '.']

/-- Pattern of line 8: Consider constraints?[^.]*\. (gi). -/
def mlP2 : RE := cats [litCI "Consider constraint", opt (ciChr 's'), .star (notChr '.'), chr '.']

/-- Pattern of line 9: Evaluate options?[^.]*\. (gi). -/
def mlP3 : RE := cats [litCI "Evaluate option", opt (ciChr 's'), .star (notChr '.'), chr '.']

/-- Pattern of line 10: Prioritize recommendations?[^.]*\. (gi). -/
def mlP4 : RE := cats [litCI "Prioritize recommendation", opt (ciChr 's'), .star (notChr '.'), chr '.']

/-- Pattern of line 11: requirements from[^.]*\. (gi). -/
def mlP5 : RE := cats [litCI "requirements from", .star (notChr '.'), chr '.']

/-- Pattern of line 12: constraints for[^.]*\. (gi). -/
def mlP6 : RE := cats [litCI "constraints for", .star (notChr '.'), chr '.']

/-- Pattern of line 13: \*\*Options\*\*:? (gi). -/
def mlP7 : RE := cats [litCI "**Options**", opt (chr ':')]

/-- Pattern of line 14: \*\*Caveat\*\*:? (gi). -/
def mlP8 : RE := cats [litCI "**Caveat**", opt (chr ':')]

/-- Pattern of line 15: \*\*Important caveat\*\*:? (gi). -/
def mlP9 : RE := cats [litCI "**Important caveat**", opt (chr ':')]

/-- Pattern of line 16: \*\*Note\*\*:? (gi). -/
def mlP10 : RE := cats [litCI "**Note**", opt (chr ':')]

/-- Pattern of line 17: \*\*Important\*\*:? (gi). -/
def mlP11 : RE := cats [litCI "**Important**", opt (chr ':')]

/-- Pattern of line 18: Identify key requirements:? (gi). -/
def mlP12 : RE := cats [litCI "Identify key requirements", opt (chr ':')]

/-- Pattern of line 19: Consider constraints:? (gi). -/
def mlP13 : RE := cats [litCI "Consider constraints", opt (chr ':')]

/-- Pattern of line 20: Evaluate options:? (gi). -/
def mlP14 : RE := cats [litCI "Evaluate options", opt (chr ':')]

/-- Pattern of line 21: Prioritize recommendations:? (gi). -/
def mlP15 : RE := cats [litCI "Prioritize recommendations", opt (chr ':')]

/-- Pattern of line 22: from the user \([^)]+\) (gi). -/
def mlP16 : RE := cats [litCI "from the user (", plus (notChr ')'), chr ')']

/-- Pattern of line 23: for this time: [^.]+\. (gi). -/
def mlP17 : RE := cats [litCI "for this time: ", plus (notChr '.'), chr '.']

/-- Pattern of line 24: based on [^.]+\. (gi). -/
def mlP18 : RE := cats [litCI "based on ", plus (notChr '.'), chr '.']

/-- Pattern of line 25: Account for [^.]+\. (gi). -/
def mlP19 : RE := cats [litCI "Account for ", plus (notChr '.'), chr '.']

/-- Pattern of line 26: based on[^.]*attractions (gi). -/
def mlP20 : RE := cats [litCI "based on", .star (notChr '.'), litCI "attractions"]

/-- The metaLabels array (lines 6–28), in source order. -/
def metaLabels : List RE :=
  [mlP1, mlP2, mlP3, mlP4, mlP5, mlP6, mlP7, mlP8, mlP9, mlP10,
   mlP11, mlP12, mlP13, mlP14, mlP15, mlP16, mlP17, mlP18, mlP19, mlP20]

/-- Line 35: cleaned.replace(/\*\*/g, ''), the global removal of the fixed
two-character pattern `**`, written as the equivalent left-to-right scan
that drops each non-overlapping occurrence. -/
def removeDoubleStars : List Char → List Char
  | '*' :: '*' :: rest => removeDoubleStars rest
  | c :: rest => c :: removeDoubleStars rest
  | [] => []

/-- Line 38 pattern: :\s*: (g). -/
def reDoubleColon : RE := cats [chr ':', wsStar, chr ':']

/-- Line 39 pattern: \s{2,} (g). -/
def reMultiSpace : RE := cats [ws, ws, wsStar]

/-- Line 42 pattern: (\d+\.)\s*:\s* (g). -/
def reNumColon : RE := cats [.grp 1 (cats [digPlus, chr '.']), wsStar, chr ':', wsStar]

/-- Line 45 pattern: \[COMPLEX\] (gi). -/
def reComplexTag : RE := litCI "[COMPLEX]"

/-- Line 48 pattern: Plan:\s*(\d+\.) (g). -/
def rePlanNum : RE := cats [lit "Plan:", wsStar, .grp 1 (cats [digPlus, chr '.'])]

/-- Line 49 pattern: (\d+\.)\s* (g). -/
def reNumItem : RE := cats [.grp 1 (cats [digPlus, chr '.']), wsStar]

/-- Line 52 pattern: Recommendation:\s*\n*TL;DR: (g). -/
def reRecTldr : RE := cats [lit "Recommendation:", wsStar, .star (chr '\n'), lit "TL;DR:"]

/-- Line 55 pattern: ^\s*Plan:\s*$ (gm). -/
def rePlanLine : RE := cats [.bolM, wsStar, lit "Plan:", wsStar, .eolM]

/-- Line 56 pattern: ^\s*Recommendation:\s*$ (gm). -/
def reRecLine : RE := cats [.bolM, wsStar, lit "Recommendation:", wsStar, .eolM]

/-- Line 61 pattern: \s*• (g). -/
def reBullet : RE := cats [wsStar, chr '•']

/-- Line 65 pattern: ([^\n])\s*Sources: (g). -/
def reSources : RE := cats [.grp 1 (notChr '\n'), wsStar, lit "Sources:"]

/-- Line 68 pattern: \n{3,} (g). -/
def reTripleNewline : RE := cats [chr '\n', chr '\n', chr '\n', .star (chr '\n')]

/-- Line 71 pattern: [ \t]+$ (gm). -/
def reTrailWs : RE := cats [plus (.cls (fun c => c = ' ' || c = '\t')), .eolM]

/-- SystemLeakageCleaner.clean (src/cleanSystemLeakage.ts, lines 2–75): the
meta-label removals, the emphasis and tag removals, and the formatting
rewrites, applied in source order, ending with trim. -/
def clean (response : String) : String :=
  let c0 := metaLabels.foldl (fun s p => Regex.replaceAll p [] s) response
  let c1 := String.mk (removeDoubleStars c0.data)
  let c2 := Regex.replaceAll reDoubleColon [.str ":"] c1
  let c3 := Regex.replaceAll reMultiSpace [.str " "] c2
  let c4 := Regex.replaceAll reNumColon [.cap 1, .str " "] c3
  let c5 := Regex.replaceAll reComplexTag [] c4
  let c6 := Regex.replaceAll rePlanNum [.str "Plan:\n", .cap 1] c5
  let c7 := Regex.replaceAll reNumItem [.str "\n", .cap 1, .str " "] c6
  let c8 := Regex.replaceAll reRecTldr [.str "\nRecommendation:\nTL;DR:"] c7
  let c9 := Regex.replaceAll rePlanLine [.str "Plan:"] c8
  let c10 := Regex.replaceAll reRecLine [.str "\nRecommendation:"] c9
  let c11 := Regex.replaceAll reBullet [.str "\n•"] c10
  let c12 := Regex.replaceAll reSources [.cap 1, .str "\n\nSources:"] c11
  let c13 := Regex.replaceAll reTripleNewline [.str "\n\n"] c12
  let c14 := Regex.replaceAll reTrailWs [] c13
  jsTrim c14

/-- Adjacent-pair check: true when the character list nowhere contains two
consecutive `*` characters (i.e. no bold marker). -/
def noDoubleStar : List Char → Bool
  | '*' :: '*' :: _ => false
  | _ :: rest => noDoubleStar rest
  | [] => true

end CleanSrc

/-! ## hallucinationDetector.ts — HallucinationDetector

The weather payload reaching the detector carries `temp_avg` and
`rain_probability`; both are integers by the time they are compared
(the server rounds them when building the forecast summary), so they are
modelled as integers and Math.round on them is the identity. -/

namespace DetectorSrc

open Regex

/-- The weather fields of the external context that the detector reads. -/
structure Weather where
  temp_avg : Option Int := none
  rain_probability : Option Int := none
deriving DecidableEq

/-- The record returned by detectHallucinations (lines 11–15). -/
structure DetectionResult where
  suspicious : Bool
  issues : List String
  confidence : Nat
deriving DecidableEq

/-- Pattern of line 3: exactly \$?\d+ (gi). -/
def spExactly : RE := cats [litCI "exactly ", opt (chr '$'), digPlus]

/-- Pattern of line 4: precisely \$?\d+ (gi). -/
def spPrecisely : RE := cats [litCI "precisely ", opt (chr '$'), digPlus]

/-- Pattern of line 5: \$\d{3,}\.\d{2} (g). -/
def spPrice : RE := cats [chr '$', digit, digit, digit, .star digit, chr '.', digit, digit]

/-- Pattern of line 6: \b\d{1,2}:\d{2}\s*(AM|PM|am|pm)\b (g). -/
def spTime : RE :=
  cats [.wb, digit, opt digit, chr ':', digit, digit, wsStar,
        .grp 1 (altL [lit "AM", lit "PM", lit "am", lit "pm"]), .wb]

/-- Pattern of line 7: \b(guaranteed|definitely|always|never)\b (gi). -/
def spAbsolute : RE :=
  cats [.wb, .grp 1 (altL [litCI "guaranteed", litCI "definitely", litCI "always", litCI "never"]), .wb]

/-- The suspiciousPatterns array (lines 2–8), in source order. -/
def suspiciousPatterns : List RE := [spExactly, spPrecisely, spPrice, spTime, spAbsolute]

/-- Pattern of line 22: \d+°[CF]|\d+\s*degrees (gi). -/
def reTempNoData : RE :=
  .alt (cats [digPlus, chr '°', .cls (fun c => jsLowerChar c == 'c' || jsLowerChar c == 'f')])
       (cats [digPlus, wsStar, litCI "degrees"])

/-- Pattern of line 29: \b(rain|sunny|cloudy|storm|snow|fog|humid)\b (gi). -/
def reWeatherTerm : RE :=
  cats [.wb, .grp 1 (altL [litCI "rain", litCI "sunny", litCI "cloudy", litCI "storm",
                           litCI "snow", litCI "fog", litCI "humid"]), .wb]

/-- Pattern of line 66: (\d+)°[CF] (g). -/
def reTempCtx : RE := cats [.grp 1 digPlus, chr '°', .cls (fun c => c = 'C' || c = 'F')]

/-- Pattern of line 81: (\d+)%\s*(?:chance|probability)?\s*(?:of)?\s*rain (gi). -/
def reRainClaim : RE :=
  cats [.grp 1 digPlus, chr '%', wsStar, opt (altL [litCI "chance", litCI "probability"]),
        wsStar, opt (litCI "of"), wsStar, litCI "rain"]

/-- Lines 22–26: the bare-temperature check run when no weather context is
present; returns the pushed issues and the confidence increment. -/
def tempNoDataPart (response : String) : List String × Nat :=
  if matchAll reTempNoData response ≠ [] then
    (["Specific temperature mentioned without weather data"], 30)
  else ([], 0)

/-- Lines 29–33: the unhedged weather-condition check run when no weather
context is present. -/
def weatherTermsPart (response : String) : List String × Nat :=
  if matchAll reWeatherTerm response ≠ [] ∧ includesSubstr response "typically" = false
      ∧ includesSubstr response "usually" = false ∧ includesSubstr response "normally" = false
      ∧ includesSubstr response "probably" = false then
    (["Weather conditions stated without data source"], 20)
  else ([], 0)

/-- Lines 38–46: one issue and a +5 increment per match of each pattern of
suspiciousPatterns, patterns in array order, matches in scan order. -/
def suspiciousPart (response : String) : List String × Nat :=
  let ms := suspiciousPatterns.flatMap (fun p => matchAll p response)
  (ms.map (fun m => "Overly specific claim: \"" ++ m ++ "\""), 5 * ms.length)

/-- checkWeatherContradictions (lines 64–92): the issues appended to the
detection's issue list when weather context is present — temperature claims
outside the 3-degree tolerance, then rain-probability claims outside the
10-point tolerance.  No confidence is added. -/
def checkWeatherContradictions (response : String) (weather : Weather) : List String :=
  let tempMatches := matchAll reTempCtx response
  let tempIssues :=
    match weather.temp_avg with
    | some avg =>
      if tempMatches ≠ [] then
        tempMatches.flatMap (fun m =>
          let temp := jsParseInt m
          let apiTemp := avg
          if 3 < (temp - apiTemp).natAbs then
            ["Temperature " ++ m ++ " differs from API data (" ++ toString apiTemp ++ "°C)"]
          else [])
      else []
    | none => []
  let rainIssues :=
    match weather.rain_probability with
    | some actual =>
      let rainClaims := matchAll reRainClaim response
      if rainClaims ≠ [] then
        rainClaims.flatMap (fun claim =>
          let claimed := jsParseInt claim
          if 10 < (claimed - actual).natAbs then
            ["Rain probability claim differs from API (actual: " ++ toString actual ++ "%)"]
          else [])
      else []
    | none => []
  tempIssues ++ rainIssues

/-- detectHallucinations (lines 11–61).  `externalWeather` models
externalContext?.weather: `none` both for an absent context and for a
context without weather data. -/
def detectHallucinations (response : String) (externalWeather : Option Weather) : DetectionResult :=
  let base :=
    match externalWeather with
    | none =>
      let a := tempNoDataPart response
      let b := weatherTermsPart response
      (a.1 ++ b.1, a.2 + b.2)
    | some _ => ([], 0)
  let sp := suspiciousPart response
  let contra :=
    match externalWeather with
    | some w => checkWeatherContradictions response w
    | none => []
  let issues := base.1 ++ sp.1 ++ contra
  let confidenceScore := Nat.min (base.2 + sp.2) 65
  ⟨decide (0 < issues.length), issues, confidenceScore⟩

/-- The record returned by validateResponse (lines 152–158); `confidence`
is set on every return path of the source, `issues` and `wasFixed` only on
some, hence the options. -/
structure ValidationResult where
  valid : Bool
  response : String
  issues : Option (List String)
  confidence : Nat
  wasFixed : Option Bool
deriving DecidableEq

/-- validateResponse (lines 148–205).  The repair step is abstracted as the
parameter `fixHallucinations` standing for the method of the same name
(lines 95–145): the validity flag and the confidence of the result do not
depend on the repaired text, and the theorems below hold for every repair
function, in particular the source's. -/
def validateResponse (fixHallucinations : String → List String → String)
    (response : String) (externalWeather : Option Weather) (autoFix : Bool) : ValidationResult :=
  let detection := detectHallucinations response externalWeather
  if detection.suspicious = false ∨ detection.confidence < 30 then
    ⟨true, response, none, detection.confidence, none⟩
  else if autoFix = true ∧ detection.confidence ≤ 50 then
    ⟨true, fixHallucinations response detection.issues, some detection.issues,
     detection.confidence, some true⟩
  else if autoFix = true ∧ detection.confidence ≤ 65 then
    ⟨true, fixHallucinations response detection.issues, some detection.issues,
     detection.confidence, some true⟩
  else
    ⟨false, response, some detection.issues, detection.confidence, some false⟩

/-- The orchestrator's regeneration condition
`!validation.valid && validation.confidence! > 70` (server chat handler). -/
def regenCondition (v : ValidationResult) : Bool :=
  !v.valid && decide (70 < v.confidence)

end DetectorSrc

/-! ## conversationManager.ts — ConversationManager.extractPreferences -/

namespace ManagerSrc

open Regex

/-- The budget tier values of the UserPreferences interface (line 5). -/
inductive BudgetTier where
  | budget | moderate | luxury
deriving DecidableEq

/-- The UserPreferences interface (lines 4–10); travelStyle and
mobilityNeeds are never written by extractPreferences but are kept for the
record shape. -/
structure UserPreferences where
  budget : Option BudgetTier := none
  interests : Option (List String) := none
  travelStyle : Option String := none
  dietaryRestrictions : Option (List String) := none
  mobilityNeeds : Option (List String) := none
deriving DecidableEq

/-- Pattern of line 48: budget|cheap|affordable|backpack (i). -/
def reBudgetLow : RE := altL [litCI "budget", litCI "cheap", litCI "affordable", litCI "backpack"]

/-- Pattern of line 50: luxury|high-end|premium|first class (i). -/
def reBudgetLux : RE := altL [litCI "luxury", litCI "high-end", litCI "premium", litCI "first class"]

/-- Pattern of line 52: moderate|mid-range|comfortable (i). -/
def reBudgetMod : RE := altL [litCI "moderate", litCI "mid-range", litCI "comfortable"]

/-- Pattern of line 58: museum|art|history|culture|temple|monument (i). -/
def reCulture : RE := altL [litCI "museum", litCI "art", litCI "history", litCI "culture",
                            litCI "temple", litCI "monument"]

/-- Pattern of line 59: beach|hiking|outdoor|nature|mountain|park (i). -/
def reNature : RE := altL [litCI "beach", litCI "hiking", litCI "outdoor", litCI "nature",
                           litCI "mountain", litCI "park"]

/-- Pattern of line 60: food|restaurant|cuisine|eat|culinary|street food (i). -/
def reFood : RE := altL [litCI "food", litCI "restaurant", litCI "cuisine", litCI "eat",
                         litCI "culinary", litCI "street food"]

/-- Pattern of line 61: shopping|mall|market|souvenir (i). -/
def reShopping : RE := altL [litCI "shopping", litCI "mall", litCI "market", litCI "souvenir"]

/-- Pattern of line 62: nightlife|club|bar|party|pub (i). -/
def reNightlife : RE := altL [litCI "nightlife", litCI "club", litCI "bar", litCI "party", litCI "pub"]

/-- Pattern of line 63: adventure|extreme|adrenaline|diving|climbing (i). -/
def reAdventure : RE := altL [litCI "adventure", litCI "extreme", litCI "adrenaline",
                              litCI "diving", litCI "climbing"]

/-- Pattern of line 70: vegetarian|vegan|halal|kosher|gluten (i). -/
def reDietKey : RE := altL [litCI "vegetarian", litCI "vegan", litCI "halal",
                            litCI "kosher", litCI "gluten"]

/-- Pattern of line 71: (vegetarian|vegan|halal|kosher|gluten-free) (gi). -/
def reDietCapture : RE := .grp 1 (altL [litCI "vegetarian", litCI "vegan", litCI "halal",
                                        litCI "kosher", litCI "gluten-free"])

/-- Lines 47–54: the budget-tier detection (first matching tier wins). -/
def applyBudget (message : String) (p : UserPreferences) : UserPreferences :=
  if test reBudgetLow message then { p with budget := some .budget }
  else if test reBudgetLux message then { p with budget := some .luxury }
  else if test reBudgetMod message then { p with budget := some .moderate }
  else p

/-- Lines 57–63: the interest tags pushed for the current message, in
source order. -/
def detectedInterests (message : String) : List String :=
  (if test reCulture message then ["culture"] else []) ++
  (if test reNature message then ["nature"] else []) ++
  (if test reFood message then ["food"] else []) ++
  (if test reShopping message then ["shopping"] else []) ++
  (if test reNightlife message then ["nightlife"] else []) ++
  (if test reAdventure message then ["adventure"] else [])

/-- Lines 65–67: union the detected interests into the existing tag list
(JS spreads the existing tags first into a Set). -/
def applyInterests (message : String) (p : UserPreferences) : UserPreferences :=
  let interests := detectedInterests message
  if interests ≠ [] then
    { p with interests := some (jsSetDedup ((p.interests.getD []) ++ interests)) }
  else p

/-- Lines 69–75: the dietary-restriction step — when a dietary keyword
occurs and the capture pattern yields matches, the field is assigned the
deduplicated lower-cased matches of the current message. -/
def applyDietary (message : String) (p : UserPreferences) : UserPreferences :=
  if test reDietKey message then
    let restrictions := matchAll reDietCapture message
    if restrictions ≠ [] then
      { p with dietaryRestrictions := some (jsSetDedup (restrictions.map jsToLower)) }
    else p
  else p

/-- extractPreferences (lines 44–78): budget, then interests, then dietary
restrictions, each updating the copy of the existing preferences. -/
def extractPreferences (message : String) (existing : UserPreferences) : UserPreferences :=
  applyDietary message (applyInterests message (applyBudget message existing))

end ManagerSrc

/-! ## server.ts (unnamed variant) — day extraction and the chat route -/

namespace ServerSrc

open Regex

/-- The record returned by extractDayInfo (line 260). -/
structure DayInfo where
  targetDay : String
  daysAhead : Int
deriving DecidableEq

/-- getDaysUntilWeekday (lines 304–319).  The source reads the current
weekday from the system clock (new Date().getDay()); it is abstracted as
the argument `currentWeekday`. -/
def getDaysUntilWeekday (currentWeekday targetWeekday : Int) : Int :=
  let daysUntil := targetWeekday - currentWeekday
  if daysUntil ≤ 0 then daysUntil + 7 else daysUntil

/-- The weekdays array of line 275, misspellings included, in source order. -/
def weekdaysList : List String :=
  ["monday", "tuesday", "wednesday", "wedensday", "wednessday",
   "thursday", "friday", "saturday", "sunday"]

/-- The weekdayMappings object of lines 280–290: each recognised day name
mapped through getDaysUntilWeekday with its weekday number. -/
def weekdayMapping (currentWeekday : Int) : String → Int
  | "monday" => getDaysUntilWeekday currentWeekday 1
  | "tuesday" => getDaysUntilWeekday currentWeekday 2
  | "wednesday" => getDaysUntilWeekday currentWeekday 3
  | "wedensday" => getDaysUntilWeekday currentWeekday 3
  | "wednessday" => getDaysUntilWeekday currentWeekday 3
  | "thursday" => getDaysUntilWeekday currentWeekday 4
  | "friday" => getDaysUntilWeekday currentWeekday 5
  | "saturday" => getDaysUntilWeekday currentWeekday 6
  | "sunday" => getDaysUntilWeekday currentWeekday 0
  | _ => 0

/-- extractDayInfo (lines 260–302): the lower-cased query is checked for
"tomorrow"/"tommorow", then "day after tomorrow", then "today", then the
first weekday name occurring in the weekdays array order; otherwise the
default is today. -/
def extractDayInfo (currentWeekday : Int) (query : String) : DayInfo :=
  let q := jsToLower query
  if includesSubstr q "tomorrow" || includesSubstr q "tommorow" then
    ⟨"tomorrow", 1⟩
  else if includesSubstr q "day after tomorrow" then
    ⟨"day after tomorrow", 2⟩
  else if includesSubstr q "today" then
    ⟨"today", 0⟩
  else
    match weekdaysList.find? (fun day => includesSubstr q day) with
    | some day =>
      ⟨if day.startsWith "wednes" then "wednesday" else day, weekdayMapping currentWeekday day⟩
    | none => ⟨"today", 0⟩

/-- No temporal cue at all: the lower-cased query contains none of the
tomorrow forms, "today", or a weekday name (misspellings included). -/
def noTemporalCue (query : String) : Bool :=
  let q := jsToLower query
  !(includesSubstr q "tomorrow") && !(includesSubstr q "tommorow") &&
  !(includesSubstr q "today") && weekdaysList.all (fun day => !(includesSubstr q day))

/-- The weatherKeywords array of needsExternal (lines 242–247). -/
def weatherKeywords : List String :=
  ["weather", "temperature", "forecast", "climate", "rain", "sunny", "cloudy",
   "today", "now", "current", "tomorrow", "next week",
   "monday", "tuesday", "wednesday", "thursday", "friday", "saturday", "sunday",
   "this week", "weekend", "hot", "cold", "warm", "cool"]

/-- Pattern of line 252:
^(what about|how about|and)\s+(monday|tuesday|wednesday|thursday|friday|saturday|sunday|tomorrow|today) (i). -/
def reWhatAboutDay : RE :=
  cats [.bos,
        .grp 1 (altL [litCI "what about", litCI "how about", litCI "and"]),
        plus ws,
        .grp 2 (altL [litCI "monday", litCI "tuesday", litCI "wednesday", litCI "thursday",
                      litCI "friday", litCI "saturday", litCI "sunday",
                      litCI "tomorrow", litCI "today"])]

/-- needsExternal (lines 241–257): the "what about day" pattern short
circuit, else any weather keyword contained in the lower-cased query. -/
def needsExternal (query : String) : Bool :=
  let q := jsToLower query
  if test reWhatAboutDay q then true
  else weatherKeywords.any (fun k => includesSubstr q k)

/-- The city-clarification reply of the chat handler (line 704). -/
def askCityReply : String :=
  "I\x27d be happy to help with weather information! Could you please specify which city you\x27re asking about? For example: \x27weather in Paris tomorrow\x27 or \x27forecast for New York on Friday\x27."

/-- The fixed beyond-forecast-range reply of the chat handler (line 722),
with the target day capitalised and the offset interpolated. -/
def beyondRangeReply (dayInfo : DayInfo) : String :=
  "I can only provide weather forecasts up to 5 days ahead. " ++
  capitalizeFirst dayInfo.targetDay ++ " is " ++ toString dayInfo.daysAhead ++
  " days away, which is beyond my forecast range. For longer-term planning, I\x27d recommend checking reliable weather services closer to your travel date."

/-- How one chat turn proceeds up to (and including) the decision whether
to invoke the weather collaborator: an early clarification reply, the
city-response lookup, the ask-for-city reply, the fixed beyond-range reply,
an invocation of getWeatherForecast with a city and an offset, or falling
through directly to the LLM. -/
inductive ChatOutcome where
  | clarify : String → ChatOutcome
  | askCity : String → ChatOutcome
  | beyondRange : String → ChatOutcome
  | weatherLookup : String → Int → ChatOutcome
  | llmDirect : ChatOutcome
deriving DecidableEq

/-- Recogniser for the weather-collaborator invocation outcome. -/
def ChatOutcome.invokesWeather : ChatOutcome → Bool
  | .weatherLookup _ _ => true
  | _ => false

/-- The routing prefix of the chat handler (lines 640–781): clarification
short-circuit, the city-response branch (which defaults the day to today),
then the weather branch — ask for a city when none was resolved, reply with
the fixed beyond-range text when the extracted day offset exceeds 5, and
otherwise invoke the weather collaborator.  `clarificationNeeded` stands
for the gate's result (needsClarification, line 654), `resolvedCity` for
extractCityName applied to the message and the conversation history (lines
682/699) — the same value no matter which of the two sources produced the
city — and `currentWeekday` for the system clock's weekday. -/
def chatRoute (message : String) (isProbablyCityResponse : Bool)
    (clarificationNeeded : Option String) (resolvedCity : Option String)
    (currentWeekday : Int) : ChatOutcome :=
  match clarificationNeeded with
  | some reply => .clarify reply
  | none =>
    if isProbablyCityResponse then
      match resolvedCity with
      | some city => .weatherLookup city 0
      | none => .llmDirect
    else if needsExternal message then
      match resolvedCity with
      | none => .askCity askCityReply
      | some city =>
        let dayInfo := extractDayInfo currentWeekday message
        if dayInfo.daysAhead > 5 then .beyondRange (beyondRangeReply dayInfo)
        else .weatherLookup city dayInfo.daysAhead
    else .llmDirect

end ServerSrc

/-! ## Supporting lemmas -/

/-- `startsWithChars p l` holds exactly when `l` is `p` followed by a tail. -/
theorem startsWithChars_iff (p : List Char) : ∀ l : List Char,
    startsWithChars p l = true ↔ ∃ t, l = p ++ t := by
  induction p with
  | nil =>
    intro l
    simp [startsWithChars]
  | cons c cs ih =>
    intro l
    cases l with
    | nil =>
      simp [startsWithChars]
    | cons d ds =>
      simp only [startsWithChars, Bool.and_eq_true, beq_iff_eq, ih, List.cons_append]
      constructor
      · rintro ⟨rfl, t, rfl⟩
        exact ⟨t, rfl⟩
      · rintro ⟨t, h⟩
        injection h with h1 h2
        exact ⟨h1.symm, t, h2⟩

/-- `includesChars p l` holds exactly when `p` occurs contiguously in `l`. -/
theorem includesChars_iff (p : List Char) : ∀ l : List Char,
    includesChars p l = true ↔ ∃ u v, l = u ++ p ++ v := by
  intro l
  induction l with
  | nil =>
    simp only [includesChars, startsWithChars_iff]
    constructor
    · rintro ⟨t, h⟩
      exact ⟨[], t, h⟩
    · rintro ⟨u, v, h⟩
      rw [List.append_assoc] at h
      rcases List.append_eq_nil.mp h.symm with ⟨rfl, h2⟩
      exact ⟨v, h2.symm⟩
  | cons c cs ih =>
    simp only [includesChars, Bool.or_eq_true, startsWithChars_iff, ih]
    constructor
    · rintro (⟨t, h⟩ | ⟨u, v, h⟩)
      · exact ⟨[], t, by simpa using h⟩
      · exact ⟨c :: u, v, by simp [h]⟩
    · rintro ⟨u, v, h⟩
      cases u with
      | nil => exact Or.inl ⟨v, by simpa using h⟩
      | cons x xs =>
        right
        injection h with h1 h2
        exact ⟨xs, v, h2⟩

/-- A string containing "day after tomorrow" contains "tomorrow". -/
theorem includes_tomorrow_of_includes_dayAfter (s : String)
    (h : includesSubstr s "day after tomorrow" = true) :
    includesSubstr s "tomorrow" = true := by
  unfold includesSubstr at h ⊢
  rw [includesChars_iff] at h ⊢
  obtain ⟨u, v, h⟩ := h
  refine ⟨u ++ "day after ".data, v, ?_⟩
  have hsplit : ("day after tomorrow").data = ("day after ").data ++ ("tomorrow").data := by decide
  rw [h, hsplit]
  simp

/-- Membership in the JS-Set deduplication accumulator. -/
theorem mem_jsSetDedupAux (a : String) : ∀ (l acc : List String),
    a ∈ jsSetDedupAux acc l ↔ a ∈ acc ∨ a ∈ l := by
  intro l
  induction l with
  | nil =>
    intro acc
    simp [jsSetDedupAux]
  | cons x xs ih =>
    intro acc
    unfold jsSetDedupAux
    split
    · rename_i hmem
      rw [ih]
      constructor
      · rintro (h | h)
        · exact Or.inl h
        · exact Or.inr (List.mem_cons_of_mem _ h)
      · rintro (h | h)
        · exact Or.inl h
        · rcases List.mem_cons.mp h with rfl | h
          · exact Or.inl hmem
          · exact Or.inr h
    · rw [ih]
      simp only [List.mem_cons]
      tauto

/-- Membership is preserved by the JS-Set deduplication. -/
theorem mem_jsSetDedup (a : String) (l : List String) : a ∈ jsSetDedup l ↔ a ∈ l := by
  unfold jsSetDedup
  rw [mem_jsSetDedupAux]
  simp

/-- Unfolding of the adjacent-pair check over a cons cell. -/
theorem noDoubleStar_cons (c : Char) (l : List Char) :
    CleanSrc.noDoubleStar (c :: l) =
      ((match l.head? with
        | some d => !(c = '*' && d = '*')
        | none => true) && CleanSrc.noDoubleStar l) := by
  cases l with
  | nil => by_cases hc : c = '*' <;> simp [CleanSrc.noDoubleStar, hc]
  | cons d ds =>
    by_cases hc : c = '*' <;> by_cases hd : d = '*' <;>
      simp [CleanSrc.noDoubleStar, hc, hd]

/-- Unfolding of the double-star scan over a cons cell that does not start
a double star. -/
theorem removeDoubleStars_cons (c : Char) (rest : List Char)
    (h : ¬(c = '*' ∧ rest.head? = some '*')) :
    CleanSrc.removeDoubleStars (c :: rest) = c :: CleanSrc.removeDoubleStars rest := by
  cases rest with
  | nil => by_cases hc : c = '*' <;> simp [CleanSrc.removeDoubleStars, hc]
  | cons r rs =>
    by_cases hc : c = '*' <;> by_cases hr : r = '*'
    · exact absurd ⟨hc, by rw [hr]; rfl⟩ h
    · simp [CleanSrc.removeDoubleStars, hc, hr]
    · simp [CleanSrc.removeDoubleStars, hc, hr]
    · simp [CleanSrc.removeDoubleStars, hc, hr]

/-- The double-star scan leaves no adjacent star pair, and its result can
only start with a star if the input did. -/
theorem removeDoubleStars_spec : ∀ (l : List Char),
    CleanSrc.noDoubleStar (CleanSrc.removeDoubleStars l) = true ∧
      ((CleanSrc.removeDoubleStars l).head? = some '*' → l.head? = some '*') := by
  intro l
  induction l using CleanSrc.removeDoubleStars.induct with
  | case1 rest ih =>
    refine ⟨by simpa [CleanSrc.removeDoubleStars] using ih.1, ?_⟩
    intro _
    rfl
  | case2 c rest hne ih =>
    have hnostart : ¬(c = '*' ∧ rest.head? = some '*') := by
      rintro ⟨hc, hh⟩
      cases rest with
      | nil => simp at hh
      | cons r rs =>
        simp only [List.head?_cons, Option.some.injEq] at hh
        exact hne rs hc (by rw [hh])
    rw [removeDoubleStars_cons c rest hnostart]
    constructor
    · rw [noDoubleStar_cons]
      simp only [Bool.and_eq_true]
      refine ⟨?_, ih.1⟩
      cases hh : (CleanSrc.removeDoubleStars rest).head? with
      | none => simp
      | some d =>
        by_cases hc : c = '*'
        · by_cases hd : d = '*'
          · exfalso
            subst hd
            exact hnostart ⟨hc, ih.2 hh⟩
          · simp [hc, hd]
        · simp [hc]
    · intro h
      simpa using h
  | case3 => exact ⟨rfl, by intro h; simp [CleanSrc.removeDoubleStars] at h⟩

/-- The detector's confidence is capped at 65 on every input. -/
theorem detect_confidence_le (r : String) (w : Option DetectorSrc.Weather) :
    (DetectorSrc.detectHallucinations r w).confidence ≤ 65 :=
  Nat.min_le_right _ _

/-- A positive increment from the bare-temperature check comes with an issue. -/
theorem tempNoDataPart_pos (r : String)
    (h : 0 < (DetectorSrc.tempNoDataPart r).2) : (DetectorSrc.tempNoDataPart r).1 ≠ [] := by
  unfold DetectorSrc.tempNoDataPart at h ⊢
  split at h
  · split <;> simp_all
  · simp at h

/-- A positive increment from the weather-term check comes with an issue. -/
theorem weatherTermsPart_pos (r : String)
    (h : 0 < (DetectorSrc.weatherTermsPart r).2) : (DetectorSrc.weatherTermsPart r).1 ≠ [] := by
  unfold DetectorSrc.weatherTermsPart at h ⊢
  split at h
  · split <;> simp_all
  · simp at h

/-- A positive increment from the overly-specific-claim loop comes with an
issue. -/
theorem suspiciousPart_pos (r : String)
    (h : 0 < (DetectorSrc.suspiciousPart r).2) : (DetectorSrc.suspiciousPart r).1 ≠ [] := by
  unfold DetectorSrc.suspiciousPart at h ⊢
  simp only at h ⊢
  intro hemp
  rw [List.map_eq_nil_iff] at hemp
  rw [hemp] at h
  simp at h

/-! ## Claim theorems -/

/-- Claim C1 (idempotence of clean) is violated by the code: on the input
": : :" one application of clean yields ": :" (the double-colon rule
rewrites the first ":( )(:" and the scan resumes after it), while a second
application collapses the result further to ":", so clean of clean differs
from clean.  The spec's contract demands idempotence, so this is a bug in
the code. -/
theorem clean_colon_not_idempotent :
    CleanSrc.clean ": : :" = ": :" ∧ CleanSrc.clean ": :" = ":" ∧
      CleanSrc.clean (CleanSrc.clean ": : :") ≠ CleanSrc.clean ": : :" := by
  refine ⟨by decide, by decide, ?_⟩
  decide

/-- Claim C2: for every response string and every external context (weather
present or absent), the confidence score of detectHallucinations lies in
the interval from 0 to 65. -/
theorem detect_confidence_in_range (r : String) (w : Option DetectorSrc.Weather) :
    0 ≤ (DetectorSrc.detectHallucinations r w).confidence ∧
      (DetectorSrc.detectHallucinations r w).confidence ≤ 65 :=
  ⟨Nat.zero_le _, detect_confidence_le r w⟩

/-- Claim C4: for current and target weekday numbers in 0..6, the computed
offset lies in 1..7, equals 7 exactly when target and current coincide, and
agrees with the forward difference modulo 7. -/
theorem getDaysUntilWeekday_offset_law (c t : Int)
    (hc0 : 0 ≤ c) (hc6 : c ≤ 6) (ht0 : 0 ≤ t) (ht6 : t ≤ 6) :
    1 ≤ ServerSrc.getDaysUntilWeekday c t ∧ ServerSrc.getDaysUntilWeekday c t ≤ 7 ∧
      (ServerSrc.getDaysUntilWeekday c t = 7 ↔ t = c) ∧
      ServerSrc.getDaysUntilWeekday c t % 7 = (t - c) % 7 := by
  unfold ServerSrc.getDaysUntilWeekday
  dsimp only
  split_ifs <;> omega

/-- Witness for the weekday offset law at target equal to current. -/
theorem getDaysUntilWeekday_offset_law_witness :
    1 ≤ ServerSrc.getDaysUntilWeekday 3 3 ∧ ServerSrc.getDaysUntilWeekday 3 3 = 7 := by
  have h := getDaysUntilWeekday_offset_law 3 3 (by decide) (by decide) (by decide) (by decide)
  exact ⟨h.1, h.2.2.1.mpr rfl⟩

/-- Claim C9 as stated is false: clean leaves single-asterisk italic
markers untouched ("*hello*" passes through unchanged), and its later
bracket-tag removal can even re-create the bold marker — cleaning
"*[COMPLEX]*" yields exactly "**". -/
theorem clean_emphasis_counterexample :
    CleanSrc.clean "*hello*" = "*hello*" ∧ CleanSrc.clean "*[COMPLEX]*" = "**" := by
  constructor <;> decide

/-- Claim C9 amended: the emphasis-removal step of clean (line 35) does
remove every bold marker present at that stage — its output never contains
two adjacent asterisks — but single asterisks survive and later steps can
re-form a double star. -/
theorem clean_doubleStar_removal (s : String) :
    CleanSrc.noDoubleStar (CleanSrc.removeDoubleStars s.data) = true :=
  (removeDoubleStars_spec s.data).1

/-- Claim C5: with autoFix set, validateResponse always returns a valid
result whose confidence respects the 65 cap — for any repair function, any
response and any context — so the orchestrator's regeneration condition
(invalid and confidence above 70) can never hold and the stricter-prompt
branch is unreachable. -/
theorem validateResponse_autoFix_valid (fix : String → List String → String)
    (r : String) (w : Option DetectorSrc.Weather) :
    (DetectorSrc.validateResponse fix r w true).valid = true ∧
      (DetectorSrc.validateResponse fix r w true).confidence ≤ 65 ∧
      DetectorSrc.regenCondition (DetectorSrc.validateResponse fix r w true) = false := by
  have hle := detect_confidence_le r w
  unfold DetectorSrc.validateResponse
  dsimp only
  split_ifs with h1 h2 h3
  · exact ⟨rfl, hle, by simp [DetectorSrc.regenCondition]⟩
  · exact ⟨rfl, hle, by simp [DetectorSrc.regenCondition]⟩
  · exact ⟨rfl, hle, by simp [DetectorSrc.regenCondition]⟩
  · exact absurd ⟨rfl, hle⟩ h3

/-- Claim C10: the suspicious flag of detectHallucinations is set exactly
when the issue list is non-empty, and a strictly positive confidence score
forces the flag, because every confidence increment is pushed together with
an issue. -/
theorem detect_suspicious_characterization (r : String) (w : Option DetectorSrc.Weather) :
    ((DetectorSrc.detectHallucinations r w).suspicious = true ↔
      (DetectorSrc.detectHallucinations r w).issues ≠ []) ∧
    (0 < (DetectorSrc.detectHallucinations r w).confidence →
      (DetectorSrc.detectHallucinations r w).suspicious = true) := by
  have hiff : (DetectorSrc.detectHallucinations r w).suspicious = true ↔
      (DetectorSrc.detectHallucinations r w).issues ≠ [] := by
    unfold DetectorSrc.detectHallucinations
    dsimp only
    simp only [decide_eq_true_eq, List.length_pos]
  refine ⟨hiff, ?_⟩
  intro h
  rw [hiff]
  unfold DetectorSrc.detectHallucinations at h ⊢
  dsimp only at h ⊢
  rw [lt_min_iff] at h
  have hsum := h.1
  cases w with
  | some wv =>
    dsimp only at hsum ⊢
    have hsp : (DetectorSrc.suspiciousPart r).1 ≠ [] := suspiciousPart_pos r (by omega)
    simp [List.append_eq_nil, hsp]
  | none =>
    dsimp only at hsum ⊢
    rcases Nat.eq_zero_or_pos (DetectorSrc.tempNoDataPart r).2 with h0 | hpos
    · rcases Nat.eq_zero_or_pos (DetectorSrc.weatherTermsPart r).2 with h0b | hposb
      · have hsp : (DetectorSrc.suspiciousPart r).1 ≠ [] := suspiciousPart_pos r (by omega)
        simp [List.append_eq_nil, hsp]
      · have hw : (DetectorSrc.weatherTermsPart r).1 ≠ [] := weatherTermsPart_pos r hposb
        simp [List.append_eq_nil, hw]
    · have ht : (DetectorSrc.tempNoDataPart r).1 ≠ [] := tempNoDataPart_pos r hpos
      simp [List.append_eq_nil, ht]

/-- Witness for the suspicious-flag characterisation: the absolute adverb
"guaranteed" earns a positive confidence, so the theorem forces the flag. -/
theorem detect_suspicious_characterization_witness :
    (DetectorSrc.detectHallucinations "guaranteed" none).suspicious = true :=
  (detect_suspicious_characterization "guaranteed" none).2 (by decide)

/-- Claim C7: with weather context present, a stated temperature exactly 3
degrees from the context temperature raises no contradiction issue while 4
degrees raises one; a stated rain probability exactly 10 points away raises
no issue while 11 does; and the contradiction checks only contribute issues
— the confidence of a detection with weather context is the capped sum of
the overly-specific-claim increments alone, independent of the weather
values. -/
theorem weatherContradictions_tolerance :
    (∀ a : Int, ((25 : Int) - a).natAbs = 3 →
        DetectorSrc.checkWeatherContradictions "25°C" ⟨some a, none⟩ = []) ∧
    (∀ a : Int, ((25 : Int) - a).natAbs = 4 →
        (DetectorSrc.checkWeatherContradictions "25°C" ⟨some a, none⟩).length = 1) ∧
    (∀ p : Int, ((30 : Int) - p).natAbs = 10 →
        DetectorSrc.checkWeatherContradictions "30% chance of rain" ⟨none, some p⟩ = []) ∧
    (∀ p : Int, ((30 : Int) - p).natAbs = 11 →
        (DetectorSrc.checkWeatherContradictions "30% chance of rain" ⟨none, some p⟩).length = 1) ∧
    (∀ (r : String) (wv : DetectorSrc.Weather),
        (DetectorSrc.detectHallucinations r (some wv)).confidence =
          Nat.min (DetectorSrc.suspiciousPart r).2 65) := by
  have hmTemp : Regex.matchAll DetectorSrc.reTempCtx "25°C" = ["25°C"] := by decide
  have hpTemp : jsParseInt "25°C" = 25 := by decide
  have hmRain : Regex.matchAll DetectorSrc.reRainClaim "30% chance of rain" =
      ["30% chance of rain"] := by decide
  have hpRain : jsParseInt "30% chance of rain" = 30 := by decide
  refine ⟨?_, ?_, ?_, ?_, ?_⟩
  · intro a ha
    simp [DetectorSrc.checkWeatherContradictions, hmTemp, hpTemp, ha]
  · intro a ha
    simp [DetectorSrc.checkWeatherContradictions, hmTemp, hpTemp, ha]
  · intro p hp
    simp [DetectorSrc.checkWeatherContradictions, hmRain, hpRain, hp]
  · intro p hp
    simp [DetectorSrc.checkWeatherContradictions, hmRain, hpRain, hp]
  · intro r wv
    simp [DetectorSrc.detectHallucinations]

/-- Witness for the tolerance boundaries at the concrete context values 22
and 21 degrees against a stated 25°C, and 20 and 19 percent against a
stated 30 percent rain chance. -/
theorem weatherContradictions_tolerance_witness :
    DetectorSrc.checkWeatherContradictions "25°C" ⟨some 22, none⟩ = [] ∧
    (DetectorSrc.checkWeatherContradictions "25°C" ⟨some 21, none⟩).length = 1 ∧
    DetectorSrc.checkWeatherContradictions "30% chance of rain" ⟨none, some 20⟩ = [] ∧
    (DetectorSrc.checkWeatherContradictions "30% chance of rain" ⟨none, some 19⟩).length = 1 ∧
    (DetectorSrc.detectHallucinations "25°C" (some ⟨some 21, none⟩)).confidence =
      Nat.min (DetectorSrc.suspiciousPart "25°C").2 65 :=
  ⟨weatherContradictions_tolerance.1 22 (by decide),
   weatherContradictions_tolerance.2.1 21 (by decide),
   weatherContradictions_tolerance.2.2.1 20 (by decide),
   weatherContradictions_tolerance.2.2.2.1 19 (by decide),
   weatherContradictions_tolerance.2.2.2.2 "25°C" ⟨some 21, none⟩⟩

/-- Claim C3 as stated is false: the code tests "tomorrow" before "day
after tomorrow", and the longer phrase contains the shorter, so a query
containing "day after tomorrow" yields a day offset of 1, not 2. -/
theorem extractDayInfo_dayAfter_counterexample :
    (ServerSrc.extractDayInfo 0 "day after tomorrow").daysAhead = 1 ∧
      (ServerSrc.extractDayInfo 0 "day after tomorrow").daysAhead ≠ 2 := by
  constructor <;> decide

/-- Claim C3 amended: any query containing "tomorrow" or "tommorow" maps to
offset 1 — in particular every query containing "day after tomorrow" maps
to 1, so the 2-day branch is unreachable; a query containing "today" and
neither tomorrow form maps to 0; and a query with no temporal cue at all
(no tomorrow form, no "today", no weekday name) maps to 0. -/
theorem extractDayInfo_priority (cw : Int) (q : String) :
    (includesSubstr (jsToLower q) "tomorrow" = true ∨
        includesSubstr (jsToLower q) "tommorow" = true →
      ServerSrc.extractDayInfo cw q = ⟨"tomorrow", 1⟩) ∧
    (includesSubstr (jsToLower q) "day after tomorrow" = true →
      ServerSrc.extractDayInfo cw q = ⟨"tomorrow", 1⟩) ∧
    (includesSubstr (jsToLower q) "tomorrow" = false →
     includesSubstr (jsToLower q) "tommorow" = false →
     includesSubstr (jsToLower q) "today" = true →
      ServerSrc.extractDayInfo cw q = ⟨"today", 0⟩) ∧
    (ServerSrc.noTemporalCue q = true →
      ServerSrc.extractDayInfo cw q = ⟨"today", 0⟩) := by
  have h1 : includesSubstr (jsToLower q) "tomorrow" = true ∨
      includesSubstr (jsToLower q) "tommorow" = true →
      ServerSrc.extractDayInfo cw q = ⟨"tomorrow", 1⟩ := by
    intro h
    unfold ServerSrc.extractDayInfo
    rcases h with h | h <;> simp [h]
  refine ⟨h1, fun h => h1 (Or.inl (includes_tomorrow_of_includes_dayAfter _ h)), ?_, ?_⟩
  · intro hto htm htd
    have hdat : includesSubstr (jsToLower q) "day after tomorrow" = false := by
      cases hd : includesSubstr (jsToLower q) "day after tomorrow"
      · rfl
      · exact absurd (includes_tomorrow_of_includes_dayAfter _ hd) (by simp [hto])
    unfold ServerSrc.extractDayInfo
    simp [hto, htm, hdat, htd]
  · intro h
    unfold ServerSrc.noTemporalCue at h
    simp only [Bool.and_eq_true, Bool.not_eq_true', List.all_eq_true] at h
    obtain ⟨⟨⟨hto, htm⟩, htd⟩, hweek⟩ := h
    have hdat : includesSubstr (jsToLower q) "day after tomorrow" = false := by
      cases hd : includesSubstr (jsToLower q) "day after tomorrow"
      · rfl
      · exact absurd (includes_tomorrow_of_includes_dayAfter _ hd) (by simp [hto])
    have hfind : ServerSrc.weekdaysList.find?
        (fun day => includesSubstr (jsToLower q) day) = none := by
      rw [List.find?_eq_none]
      intro x hx
      have hx2 := hweek x hx
      simp only [Bool.not_eq_true'] at hx2
      simp [hx2]
    unfold ServerSrc.extractDayInfo
    simp [hto, htm, hdat, htd, hfind]

/-- Witness for the amended day-priority law at four concrete queries. -/
theorem extractDayInfo_priority_witness :
    ServerSrc.extractDayInfo 0 "sunny tomorrow" = ⟨"tomorrow", 1⟩ ∧
    ServerSrc.extractDayInfo 0 "weather today" = ⟨"today", 0⟩ ∧
    ServerSrc.extractDayInfo 0 "hello world" = ⟨"today", 0⟩ ∧
    ServerSrc.extractDayInfo 0 "day after tomorrow" = ⟨"tomorrow", 1⟩ :=
  ⟨(extractDayInfo_priority 0 "sunny tomorrow").1 (Or.inl (by decide)),
   (extractDayInfo_priority 0 "weather today").2.2.1 (by decide) (by decide) (by decide),
   (extractDayInfo_priority 0 "hello world").2.2.2 (by decide),
   (extractDayInfo_priority 0 "day after tomorrow").2.1 (by decide)⟩

/-- The budget step does not touch the interest tags. -/
theorem applyBudget_interests (m : String) (p : ManagerSrc.UserPreferences) :
    (ManagerSrc.applyBudget m p).interests = p.interests := by
  unfold ManagerSrc.applyBudget
  split_ifs <;> rfl

/-- The budget step does not touch the dietary tags. -/
theorem applyBudget_dietary (m : String) (p : ManagerSrc.UserPreferences) :
    (ManagerSrc.applyBudget m p).dietaryRestrictions = p.dietaryRestrictions := by
  unfold ManagerSrc.applyBudget
  split_ifs <;> rfl

/-- The interest step does not touch the dietary tags. -/
theorem applyInterests_dietary (m : String) (p : ManagerSrc.UserPreferences) :
    (ManagerSrc.applyInterests m p).dietaryRestrictions = p.dietaryRestrictions := by
  unfold ManagerSrc.applyInterests
  dsimp only
  split_ifs <;> rfl

/-- The interest step unions: every existing interest tag survives. -/
theorem applyInterests_mem (m : String) (p : ManagerSrc.UserPreferences) (t : String)
    (h : t ∈ p.interests.getD []) : t ∈ (ManagerSrc.applyInterests m p).interests.getD [] := by
  unfold ManagerSrc.applyInterests
  dsimp only
  split_ifs with hne
  · simp only [Option.getD_some]
    rw [mem_jsSetDedup]
    exact List.mem_append_left _ h
  · exact h

/-- The dietary step does not touch the interest tags. -/
theorem applyDietary_interests (m : String) (p : ManagerSrc.UserPreferences) :
    (ManagerSrc.applyDietary m p).interests = p.interests := by
  unfold ManagerSrc.applyDietary
  dsimp only
  split_ifs <;> rfl

/-- Without a dietary keyword in the message, the dietary step is the
identity. -/
theorem applyDietary_no_key (m : String) (p : ManagerSrc.UserPreferences)
    (h : Regex.test ManagerSrc.reDietKey m = false) : ManagerSrc.applyDietary m p = p := by
  unfold ManagerSrc.applyDietary
  simp [h]

/-- Claim C6 as stated is false: a message matching a dietary keyword
replaces the dietary set instead of unioning it — extracting from "halal"
over an existing set containing "vegan" drops "vegan". -/
theorem extractPreferences_dietary_counterexample :
    (ManagerSrc.extractPreferences "halal"
        { dietaryRestrictions := some ["vegan"] }).dietaryRestrictions = some ["halal"] ∧
      "vegan" ∉ ((ManagerSrc.extractPreferences "halal"
        { dietaryRestrictions := some ["vegan"] }).dietaryRestrictions.getD []) := by
  constructor <;> decide

/-- Claim C6 amended: interest tags are unioned and never removed, for
every message and every existing preference record; dietary tags are
preserved whenever the message contains no dietary keyword, but a message
with dietary matches replaces the dietary set, possibly dropping existing
tags. -/
theorem extractPreferences_tag_preservation (m : String) (ex : ManagerSrc.UserPreferences) :
    (∀ t, t ∈ ex.interests.getD [] →
        t ∈ (ManagerSrc.extractPreferences m ex).interests.getD []) ∧
    (Regex.test ManagerSrc.reDietKey m = false →
        (ManagerSrc.extractPreferences m ex).dietaryRestrictions = ex.dietaryRestrictions) := by
  constructor
  · intro t ht
    unfold ManagerSrc.extractPreferences
    rw [applyDietary_interests]
    apply applyInterests_mem
    rw [applyBudget_interests]
    exact ht
  · intro h
    unfold ManagerSrc.extractPreferences
    rw [applyDietary_no_key _ _ h, applyInterests_dietary, applyBudget_dietary]

/-- Witness for the amended tag-preservation law: a message about museums
keeps the existing "food" interest tag and leaves the dietary set alone. -/
theorem extractPreferences_tag_preservation_witness :
    "food" ∈ (ManagerSrc.extractPreferences "museum visits"
        { interests := some ["food"] }).interests.getD [] ∧
    (ManagerSrc.extractPreferences "museum visits"
        { interests := some ["food"] }).dietaryRestrictions =
      ({ interests := some ["food"] } : ManagerSrc.UserPreferences).dietaryRestrictions :=
  ⟨(extractPreferences_tag_preservation "museum visits" _).1 "food" (by decide),
   (extractPreferences_tag_preservation "museum visits" _).2 (by decide)⟩

/-- Claim C8: whenever the chat handler is in the weather branch with a
resolved city — no matter whether the city came from the message or from
the conversation history — and the extracted day offset exceeds 5, the turn
ends with the fixed beyond-forecast-range reply and the weather
collaborator is not invoked. -/
theorem chatRoute_beyondRange (msg city : String) (cw : Int)
    (hx : ServerSrc.needsExternal msg = true)
    (hd : (ServerSrc.extractDayInfo cw msg).daysAhead > 5) :
    ServerSrc.chatRoute msg false none (some city) cw =
      ServerSrc.ChatOutcome.beyondRange
        (ServerSrc.beyondRangeReply (ServerSrc.extractDayInfo cw msg)) ∧
    (ServerSrc.chatRoute msg false none (some city) cw).invokesWeather = false := by
  unfold ServerSrc.chatRoute
  simp only [hx, Bool.false_eq_true, if_false, if_true]
  rw [if_pos hd]
  exact ⟨rfl, rfl⟩

/-- Witness for the beyond-range law: asking for Thursday weather on a
Friday (weekday 5) yields offset 6 and the fixed reply, with no weather
invocation. -/
theorem chatRoute_beyondRange_witness :
    ServerSrc.chatRoute "weather thursday" false none (some "Paris") 5 =
      ServerSrc.ChatOutcome.beyondRange
        (ServerSrc.beyondRangeReply (ServerSrc.extractDayInfo 5 "weather thursday")) ∧
    (ServerSrc.chatRoute "weather thursday" false none (some "Paris") 5).invokesWeather = false :=
  chatRoute_beyondRange "weather thursday" "Paris" 5 (by decide) (by decide)
